import Mathlib

/- Shallow embedding of the CPL automation matching engine:
   `src/matching.py`, `src/llm_assist.py`, `src/db.py` and the
   suggestion-generation handler of `app.py`.

   Numeric values that the Python code handles as IEEE floats are modelled as
   rationals.  String-to-number parsing performed by `float(str(x).strip())`
   is modelled by fields carrying the parse result (`none` = missing or
   unparseable, which the code treats identically via `_safe_num`).  The
   similarity backends (sentence-transformers / TF-IDF inside
   `_compute_similarity`) are external libraries; they enter the model as
   explicit similarity matrices, or as an abstract provider function, exactly
   as `generate_matches` consumes their output. -/

namespace CPL

/-- Unit record, both for external (transcript) units and SHEA catalog units.
Mirrors the `Dict[str, Any]` rows flowing through `matching.py` and `app.py`:
missing string fields are `""` (`str(u.get(k, ""))` / `or ""`), `credit_points`
carries the result of `float(str(x).strip())` (`none` when missing or
unparseable), `aqf_num` the parsed `aqf_level` (`none` when missing or
unparseable; an empty raw string parses to `0.0` in `app.py` and is modelled
as `some 0`), and `retrieval_confidence` the value of
`float(u.get("retrieval_confidence") or 0.0)`. -/
structure UnitDescriptor where
  id : Nat := 0
  unit_code : String := ""
  title : String := ""
  description : String := ""
  learning_outcomes : String := ""
  topics : String := ""
  keywords : String := ""
  credit_points : Option ℚ := none
  grade : String := ""
  aqf_num : Option ℚ := none
  retrieval_mode : String := ""
  retrieval_confidence : ℚ := 0
  course : String := ""
deriving DecidableEq

/-- Mirrors the `MatchResult` dataclass of `src/matching.py`. -/
structure MatchResult where
  external_idx : Nat
  shea_idx : Nat
  score : ℚ
  confidence_band : String
  explanation : String
  name_sim : ℚ := 0
  desc_sim : ℚ := 0
  outcomes_sim : ℚ := 0
  credit_sim : ℚ := 0
  grade_bonus : ℚ := 0
  retrieval_bonus : ℚ := 0
deriving DecidableEq

/-- Mirrors `_confidence_band` of `src/matching.py`. -/
def confidence_band (score : ℚ) : String :=
  if score ≥ 0.70 then "High"
  else if score ≥ 0.45 then "Medium"
  else "Low"

/-- Mirrors `_build_text` of `src/matching.py`. -/
def build_text (u : UnitDescriptor) : String :=
  String.intercalate " | "
    [u.unit_code, u.title, u.description, u.learning_outcomes, u.topics, u.keywords]

/-- Mirrors `_content_text` of `src/matching.py`. -/
def content_text (u : UnitDescriptor) : String :=
  String.intercalate " | "
    [u.description, u.learning_outcomes, u.topics, u.keywords, u.title]

/-- Pythonic `a or b or ...` chain over strings: the first non-empty entry
(the empty string is falsy in Python). -/
def firstTruthy : List String → String
  | [] => ""
  | s :: rest => if s = "" then firstTruthy rest else s

/-- Text used for the outcomes similarity matrix in `generate_matches`:
`str(u.get("learning_outcomes") or u.get("topics") or u.get("description")
or u.get("title") or "")`. -/
def outcomes_fallback_text (u : UnitDescriptor) : String :=
  firstTruthy [u.learning_outcomes, u.topics, u.description, u.title]

/-- Mirrors `_safe_num` of `src/matching.py` applied to an already-parsed
value: `float(str(s).strip())` succeeds with value `q` (`some q`) or fails
(`none`), in which case `0.0` is returned. -/
def safe_num : Option ℚ → ℚ
  | some q => q
  | none => 0

/-- Mirrors `_compat_score` of `src/matching.py`.  `not aa` in Python is true
exactly when the parsed value is `0.0` (which includes every parse failure). -/
def compat_score (a b : Option ℚ) (tolerance : ℚ) : ℚ :=
  let aa := safe_num a
  let bb := safe_num b
  if aa = 0 ∨ bb = 0 then 0
  else if |aa - bb| ≤ tolerance then 1
  else max 0 (1 - |aa - bb| / max aa bb)

/-- Grade normalization used throughout `src/matching.py`:
`str(grade or "").strip().lower()`. -/
def norm_grade (g : String) : String := g.trim.toLower

/-- Mirrors `_is_non_passing_grade` of `src/matching.py`. -/
def is_non_passing_grade (g : String) : Bool :=
  ["fail", "fl", "f", "n", "nn", "nyc", "not yet competent", "not competent",
    "unsatisfactory"].contains (norm_grade g)

/-- Mirrors `_grade_bonus` of `src/matching.py`. -/
def grade_bonus (g : String) : ℚ :=
  let s := norm_grade g
  if ["hd", "high distinction"].contains s then 0.10
  else if ["distinction", "dn", "d"].contains s then 0.07
  else if ["credit", "cr", "c"].contains s then 0.04
  else if ["pass", "ps", "p", "competent"].contains s then 0.00
  else if is_non_passing_grade s then -0.10
  else 0.00

/-- Left-pad a digit string with zeros to width `d`. -/
def natPadLeft (d : Nat) (s : String) : String :=
  String.mk (List.replicate (d - s.length) '0') ++ s

/-- Fixed-point decimal rendering of a rational with `d` fractional digits,
modelling Python's `f"{x:.df}"` format applied to the corresponding value. -/
def fmtFixed (d : Nat) (q : ℚ) : String :=
  let n : ℤ := round (|q| * ((10 : ℚ) ^ d))
  let m : Nat := n.toNat
  let ip : Nat := m / 10 ^ d
  let fp : Nat := m % 10 ^ d
  (if q < 0 then "-" else "") ++ toString ip ++
    (if d = 0 then "" else "." ++ natPadLeft d (toString fp))

/-- Field triple handed to `compare_units_natural_language` by
`_explanation` in `src/matching.py`. -/
structure NLFields where
  title : String := ""
  description : String := ""
  learning_outcomes : String := ""
deriving DecidableEq

/-- Mirrors `compare_units_natural_language` of `src/llm_assist.py` with the
LLM oracle absent (`OPENAI_API_KEY` unset, so `llm_enabled()` is false and the
network branch is skipped): the function returns the deterministic fallback
sentence built from the two titles and the numeric score. -/
def compare_units_natural_language (external_unit shea_unit : NLFields) (score : ℚ) : String :=
  let conf : String :=
    if score ≥ 0.75 then "strong"
    else if score ≥ 0.5 then "moderate"
    else "low"
  "AI-style summary: " ++ external_unit.title ++ " and " ++ shea_unit.title ++
    " show " ++ conf ++ " alignment overall (score " ++ fmtFixed 2 score ++ "). " ++
    "The comparison is based on overlap between unit descriptions and learning outcomes. " ++
    "Please review specific outcome verbs and scope depth before final approval."

/-- Specification-side restatement of the deterministic fallback: a function
of the two titles and the score alone, choosing "strong"/"moderate"/"low"
wording at score thresholds 0.75 and 0.5.  Used to compare the code-side
`compare_units_natural_language` against the spec's description. -/
def fallback_summary_spec (ext_title shea_title : String) (score : ℚ) : String :=
  let conf : String :=
    if score ≥ 0.75 then "strong"
    else if score ≥ 0.5 then "moderate"
    else "low"
  "AI-style summary: " ++ ext_title ++ " and " ++ shea_title ++
    " show " ++ conf ++ " alignment overall (score " ++ fmtFixed 2 score ++ "). " ++
    "The comparison is based on overlap between unit descriptions and learning outcomes. " ++
    "Please review specific outcome verbs and scope depth before final approval."

/-- Mirrors `_explanation` of `src/matching.py` (with the summarizer oracle
absent, as in `compare_units_natural_language` above). -/
def explanation_text (external shea : UnitDescriptor) (final_score : ℚ) (method : String)
    (pname pdesc poutcomes pcredit pgrade : ℚ) : String :=
  let retrieval_mode := if external.retrieval_mode = "" then "transcript-only" else external.retrieval_mode
  let retrieval_conf := external.retrieval_confidence
  let reason :=
    if pdesc < 0.2 ∧ poutcomes < 0.15 then
      "Low confidence because match is mostly name-based and lacks course-content evidence"
    else if poutcomes ≥ 0.4 then
      "Good content alignment from learning outcomes/topics"
    else
      "Moderate alignment; check outcomes and AQF/credit manually"
  let ai_text := compare_units_natural_language
    { title := external.title, description := external.description,
      learning_outcomes := external.learning_outcomes }
    { title := shea.title, description := shea.description,
      learning_outcomes := shea.learning_outcomes }
    final_score
  reason ++ ". Method=" ++ method ++ ". Confidence=" ++ fmtFixed 1 (final_score * 100) ++ "%. " ++
    "Components: name " ++ fmtFixed 2 pname ++ ", description " ++ fmtFixed 2 pdesc ++
    ", outcomes " ++ fmtFixed 2 poutcomes ++ ", credit " ++ fmtFixed 2 pcredit ++
    ", grade_bonus " ++ fmtFixed 2 pgrade ++ ". " ++
    "Retrieval source: " ++ retrieval_mode ++ " (" ++ fmtFixed 2 retrieval_conf ++ "). " ++
    ai_text

/-- Matrix entry access `m[i][j]`; in `generate_matches` every access is in
range (the similarity provider returns `len(A) x len(B)` matrices), so the
defaults never fire under the shapes the theorems assume. -/
def mGet (m : List (List ℚ)) (i j : Nat) : ℚ := (m.getD i []).getD j 0

/-- Pythonic `enumerate` with a start index. -/
def enumF (n : Nat) : List α → List (Nat × α)
  | [] => []
  | x :: xs => (n, x) :: enumF (n + 1) xs

/-- Pythonic slice `l[:k]` for an integer `k` (negative `k` counts from the
end, as in Python). -/
def pytake (k : ℤ) (l : List α) : List α :=
  if 0 ≤ k then l.take k.toNat else l.take ((l.length : ℤ) + k).toNat

/-- Insertion step of a stable descending sort on `(index, value)` pairs,
matching Python's stable `sorted(..., key=lambda x: x[1], reverse=True)`:
the inserted element goes before the first element whose value is not
strictly greater. -/
def insertPairDesc (p : Nat × ℚ) : List (Nat × ℚ) → List (Nat × ℚ)
  | [] => [p]
  | q :: qs => if q.2 > p.2 then q :: insertPairDesc p qs else p :: q :: qs

/-- Stable descending sort on `(index, value)` pairs. -/
def sortPairsDesc : List (Nat × ℚ) → List (Nat × ℚ)
  | [] => []
  | p :: ps => insertPairDesc p (sortPairsDesc ps)

/-- Insertion step of a stable descending sort of results by score, matching
Python's stable `results.sort(key=lambda r: r.score, reverse=True)`. -/
def insertResDesc (r : MatchResult) : List MatchResult → List MatchResult
  | [] => [r]
  | x :: xs => if x.score > r.score then x :: insertResDesc r xs else r :: x :: xs

/-- Stable descending sort of results by score. -/
def sortResultsDesc : List MatchResult → List MatchResult
  | [] => []
  | r :: rs => insertResDesc r (sortResultsDesc rs)

/-- Concatenation of the lists produced for each element (the flattening of
the nested `for` loops in `generate_matches`). -/
def concatMap (f : α → List β) : List α → List β
  | [] => []
  | x :: xs => f x ++ concatMap f xs

/-- Candidate ranking for one external unit:
`sorted(enumerate(row), key=lambda x: x[1], reverse=True)[:top_k]`. -/
def ranked_row (top_k : ℤ) (row : List ℚ) : List (Nat × ℚ) :=
  pytake top_k (sortPairsDesc (enumF 0 row))

/-- Body of the inner loop of `generate_matches` in `src/matching.py`: the
`MatchResult` built for the pair `(ext_idx, shea_idx)`. -/
def build_match (external_units shea_units : List UnitDescriptor)
    (name_sim desc_sim outcomes_sim : List (List ℚ)) (method : String)
    (ext_idx shea_idx : Nat) : MatchResult :=
  let eu := external_units.getD ext_idx {}
  let su := shea_units.getD shea_idx {}
  let outcomes := max 0 (min 1 (mGet outcomes_sim ext_idx shea_idx))
  let credit := compat_score eu.credit_points su.credit_points 2
  let gb := grade_bonus eu.grade
  let pname := max 0 (min 1 (mGet name_sim ext_idx shea_idx))
  let pdesc := max 0 (min 1 (mGet desc_sim ext_idx shea_idx))
  let poutcomes := max 0 (min 1 outcomes)
  let pcredit := max 0 (min 1 credit)
  let score0 := 0.20 * pname + 0.35 * pdesc + 0.35 * poutcomes + 0.10 * pcredit + gb
  let retrieval_conf := eu.retrieval_confidence
  let retrieval_bonus := 0.08 * retrieval_conf
  let score1 := min 1 (score0 + retrieval_bonus)
  let score2 := if poutcomes < 0.15 ∧ pdesc < 0.20 then min score1 0.58 else score1
  let score3 := max 0 (min 1 score2)
  let flagged := is_non_passing_grade eu.grade
  let score4 := if flagged then min score3 0.20 else score3
  let band := if flagged then "Flagged" else confidence_band score4
  let expl0 := explanation_text eu su score4 method pname pdesc poutcomes pcredit gb
  let expl := if flagged then
      "FLAG: Non-passing/Not Competent grade. Do NOT auto-approve credit. " ++ expl0
    else expl0
  { external_idx := ext_idx, shea_idx := shea_idx, score := score4,
    confidence_band := band, explanation := expl,
    name_sim := pname, desc_sim := pdesc, outcomes_sim := poutcomes,
    credit_sim := pcredit, grade_bonus := gb, retrieval_bonus := retrieval_bonus }

/-- Mirrors `generate_matches` of `src/matching.py` after the similarity
matrices have been computed: the four matrices (full text, title, content
text, outcomes text) and the method tag are those returned by
`_compute_similarity` and are taken as inputs here. -/
def generate_matches (external_units shea_units : List UnitDescriptor)
    (sim_matrix name_sim desc_sim outcomes_sim : List (List ℚ))
    (method : String) (top_k : ℤ) : List MatchResult :=
  if external_units.isEmpty || shea_units.isEmpty then []
  else
    sortResultsDesc (concatMap
      (fun er =>
        (ranked_row top_k er.2).map
          (fun p => build_match external_units shea_units name_sim desc_sim outcomes_sim
            method er.1 p.1))
      (enumF 0 sim_matrix))

/-- Mirrors `generate_matches` of `src/matching.py` with the similarity
provider made explicit: `provider a b` stands for the matrix returned by
`_compute_similarity(a, b)` and `method` for its technique tag. -/
def generate_matches_with (external_units shea_units : List UnitDescriptor)
    (provider : List String → List String → List (List ℚ))
    (method : String) (top_k : ℤ) : List MatchResult :=
  generate_matches external_units shea_units
    (provider (external_units.map build_text) (shea_units.map build_text))
    (provider (external_units.map (fun u => u.title)) (shea_units.map (fun u => u.title)))
    (provider (external_units.map content_text) (shea_units.map content_text))
    (provider (external_units.map outcomes_fallback_text) (shea_units.map outcomes_fallback_text))
    method top_k

/-- Substring test `needle in haystack` over character lists. -/
def startsWithChars : List Char → List Char → Bool
  | [], _ => true
  | _ :: _, [] => false
  | c :: cs, d :: ds => c = d && startsWithChars cs ds

/-- Pythonic `needle in haystack` for strings. -/
def strContains (hay needle : String) : Bool :=
  go needle.toList hay.toList
where
  go (needle : List Char) : List Char → Bool
    | [] => startsWithChars needle []
    | d :: ds => startsWithChars needle (d :: ds) || go needle ds

/-- Mirrors the level-gate portion of the suggestion handler in `app.py`
(lines 359-389): returns the detected target course group and the gate
source tag (`"aqf"`, `"keyword"` or `"none"`). -/
def level_gate (ext : UnitDescriptor) : Option String × String :=
  let viaAqf : Option String × String :=
    match ext.aqf_num with
    | some q => if q ≥ 9 then (some "MIT", "aqf")
                else if q > 0 then (some "BIT", "aqf")
                else (none, "none")
    | none => (none, "none")
  match viaAqf with
  | (some t, src) => (some t, src)
  | (none, _) =>
    let context_text :=
      (String.intercalate " "
        [ext.title, ext.description, ext.learning_outcomes, ext.topics]).toLower
    if ["master", "postgraduate", "graduate diploma"].any (fun k => strContains context_text k) then
      (some "MIT", "keyword")
    else if ["bachelor", "undergraduate"].any (fun k => strContains context_text k) then
      (some "BIT", "keyword")
    else (none, "none")

/-- Suggestion row as assembled by the handler in `app.py` (lines 398-416). -/
structure SuggestionRow where
  external_unit_id : Nat
  shea_unit_id : Nat
  score : ℚ
  confidence_band : String
  explanation : String
  name_sim : ℚ
  desc_sim : ℚ
  outcomes_sim : ℚ
  credit_sim : ℚ
  grade_bonus : ℚ
  retrieval_bonus : ℚ
deriving DecidableEq

/-- Explanation prelude written by the handler: records the gate outcome. -/
def gate_tag (target : Option String) (src : String) : String :=
  match target with
  | some t => "Level gate=" ++ t ++ " via " ++ src ++ ". "
  | none => "Level gate=not-detected. "

/-- Row assembly for one `MatchResult` in the handler of `app.py`. -/
def build_row (ext : UnitDescriptor) (pool : List UnitDescriptor)
    (target : Option String) (src : String) (r : MatchResult) : SuggestionRow :=
  { external_unit_id := ext.id,
    shea_unit_id := (pool.getD r.shea_idx {}).id,
    score := r.score,
    confidence_band := r.confidence_band,
    explanation := gate_tag target src ++ r.explanation,
    name_sim := r.name_sim, desc_sim := r.desc_sim, outcomes_sim := r.outcomes_sim,
    credit_sim := r.credit_sim, grade_bonus := r.grade_bonus,
    retrieval_bonus := r.retrieval_bonus }

/-- Mirrors the per-external-unit body of the suggestion handler in `app.py`
(lines 359-416): level gate, catalog filtering with fallback to the full
catalog, match generation, and row assembly. -/
def suggestion_rows_for (ext : UnitDescriptor) (shea : List UnitDescriptor)
    (provider : List String → List String → List (List ℚ))
    (method : String) (top_k : ℤ) : List SuggestionRow :=
  let g := level_gate ext
  let pool :=
    match g.1 with
    | some t =>
      let filtered := shea.filter (fun s => s.course.toUpper == t)
      if filtered.isEmpty then shea else filtered
    | none => shea
  (generate_matches_with [ext] pool provider method top_k).map
    (build_row ext pool g.1 g.2)

/-- Stored (nullable) columns of an `external_units` row touched by
`update_external_unit_enrichment` in `src/db.py`. -/
structure ExternalUnitColumns where
  description : Option String := none
  learning_outcomes : Option String := none
  topics : Option String := none
  credit_points : Option String := none
  aqf_level : Option String := none
  source_url : Option String := none
  retrieval_mode : Option String := none
  retrieval_confidence : Option ℚ := none
deriving DecidableEq

/-- Enrichment payload: `payload.get(key)` per column, `none` when the key is
absent or its value is `None` (bound as SQL NULL). -/
structure EnrichmentPayload where
  description : Option String := none
  learning_outcomes : Option String := none
  topics : Option String := none
  credit_points : Option String := none
  aqf_level : Option String := none
  source_url : Option String := none
  retrieval_mode : Option String := none
  retrieval_confidence : Option ℚ := none
deriving DecidableEq

/-- SQL `COALESCE(?, col)`: the bound parameter when it is non-NULL,
otherwise the stored column value. -/
def coalesce (newV old : Option α) : Option α :=
  match newV with
  | some v => some v
  | none => old

/-- Mirrors the `UPDATE ... SET col = COALESCE(?, col)` statement of
`update_external_unit_enrichment` in `src/db.py` (lines 204-230), applied to
the row with the given id. -/
def update_external_unit_enrichment (rec : ExternalUnitColumns)
    (payload : EnrichmentPayload) : ExternalUnitColumns :=
  { description := coalesce payload.description rec.description,
    learning_outcomes := coalesce payload.learning_outcomes rec.learning_outcomes,
    topics := coalesce payload.topics rec.topics,
    credit_points := coalesce payload.credit_points rec.credit_points,
    aqf_level := coalesce payload.aqf_level rec.aqf_level,
    source_url := coalesce payload.source_url rec.source_url,
    retrieval_mode := coalesce payload.retrieval_mode rec.retrieval_mode,
    retrieval_confidence := coalesce payload.retrieval_confidence rec.retrieval_confidence }

instance : Inhabited MatchResult :=
  ⟨{ external_idx := 0, shea_idx := 0, score := 0, confidence_band := "", explanation := "" }⟩

/-! Lemmas about the stable descending sorts, the enumeration and the loop
flattening used by `generate_matches`. -/

lemma mem_insertPairDesc {p q : Nat × ℚ} {l : List (Nat × ℚ)} :
    q ∈ insertPairDesc p l ↔ q = p ∨ q ∈ l := by
  induction l with
  | nil => simp [insertPairDesc]
  | cons x xs ih =>
    simp only [insertPairDesc]
    split
    · rw [List.mem_cons, ih, List.mem_cons]
      tauto
    · simp [List.mem_cons]

lemma perm_insertPairDesc (p : Nat × ℚ) (l : List (Nat × ℚ)) :
    List.Perm (insertPairDesc p l) (p :: l) := by
  induction l with
  | nil => exact List.Perm.refl _
  | cons x xs ih =>
    simp only [insertPairDesc]
    split
    · exact (ih.cons x).trans (List.Perm.swap p x xs)
    · exact List.Perm.refl _

lemma perm_sortPairsDesc (l : List (Nat × ℚ)) : List.Perm (sortPairsDesc l) l := by
  induction l with
  | nil => exact List.Perm.refl _
  | cons p ps ih =>
    exact (perm_insertPairDesc p (sortPairsDesc ps)).trans (ih.cons p)

lemma mem_sortPairsDesc {q : Nat × ℚ} {l : List (Nat × ℚ)} :
    q ∈ sortPairsDesc l ↔ q ∈ l := (perm_sortPairsDesc l).mem_iff

lemma length_sortPairsDesc (l : List (Nat × ℚ)) :
    (sortPairsDesc l).length = l.length := (perm_sortPairsDesc l).length_eq

lemma insertPairDesc_sorted {p : Nat × ℚ} {l : List (Nat × ℚ)}
    (h : l.Pairwise (fun a b => b.2 ≤ a.2)) :
    (insertPairDesc p l).Pairwise (fun a b => b.2 ≤ a.2) := by
  induction l with
  | nil => simp [insertPairDesc]
  | cons x xs ih =>
    have h' := List.pairwise_cons.mp h
    simp only [insertPairDesc]
    split
    · refine List.pairwise_cons.mpr ⟨?_, ih h'.2⟩
      intro y hy
      rcases mem_insertPairDesc.mp hy with rfl | hy'
      · exact le_of_lt (by assumption)
      · exact h'.1 y hy'
    · refine List.pairwise_cons.mpr ⟨?_, h⟩
      intro y hy
      rcases List.mem_cons.mp hy with rfl | hy'
      · exact not_lt.mp (by assumption)
      · exact le_trans (h'.1 y hy') (not_lt.mp (by assumption))

lemma sortPairsDesc_sorted (l : List (Nat × ℚ)) :
    (sortPairsDesc l).Pairwise (fun a b => b.2 ≤ a.2) := by
  induction l with
  | nil => simp [sortPairsDesc]
  | cons p ps ih => exact insertPairDesc_sorted ih

lemma insertPairDesc_stable {p : Nat × ℚ} {l : List (Nat × ℚ)}
    (hfst : ∀ q ∈ l, p.1 < q.1)
    (h : l.Pairwise (fun a b => b.2 < a.2 ∨ (a.2 = b.2 ∧ a.1 < b.1))) :
    (insertPairDesc p l).Pairwise (fun a b => b.2 < a.2 ∨ (a.2 = b.2 ∧ a.1 < b.1)) := by
  induction l with
  | nil => simp [insertPairDesc]
  | cons x xs ih =>
    have h' := List.pairwise_cons.mp h
    simp only [insertPairDesc]
    split
    · refine List.pairwise_cons.mpr
        ⟨?_, ih (fun q hq => hfst q (List.mem_cons_of_mem _ hq)) h'.2⟩
      intro y hy
      rcases mem_insertPairDesc.mp hy with rfl | hy'
      · exact Or.inl (by assumption)
      · exact h'.1 y hy'
    · have hxp : x.2 ≤ p.2 := not_lt.mp (by assumption)
      refine List.pairwise_cons.mpr ⟨?_, h⟩
      intro y hy
      rcases List.mem_cons.mp hy with rfl | hy'
      · rcases lt_or_eq_of_le hxp with hlt | heq
        · exact Or.inl hlt
        · exact Or.inr ⟨heq.symm, hfst y (List.mem_cons_self y xs)⟩
      · rcases h'.1 y hy' with hlt | ⟨heq, _⟩
        · exact Or.inl (lt_of_lt_of_le hlt hxp)
        · rcases lt_or_eq_of_le hxp with hlt2 | heq2
          · exact Or.inl (heq ▸ hlt2)
          · exact Or.inr ⟨heq2 ▸ heq, hfst y (List.mem_cons_of_mem _ hy')⟩

lemma sortPairsDesc_stable {l : List (Nat × ℚ)}
    (h : l.Pairwise (fun a b => a.1 < b.1)) :
    (sortPairsDesc l).Pairwise (fun a b => b.2 < a.2 ∨ (a.2 = b.2 ∧ a.1 < b.1)) := by
  induction l with
  | nil => simp [sortPairsDesc]
  | cons p ps ih =>
    have h' := List.pairwise_cons.mp h
    exact insertPairDesc_stable
      (fun q hq => h'.1 q (mem_sortPairsDesc.mp hq)) (ih h'.2)

lemma fst_ge_of_mem_enumF {q : Nat × α} : ∀ {n : Nat} {l : List α}, q ∈ enumF n l → n ≤ q.1 := by
  intro n l
  induction l generalizing n with
  | nil => intro h; cases h
  | cons x xs ih =>
    intro h
    rcases List.mem_cons.mp h with rfl | h'
    · exact Nat.le_refl _
    · exact Nat.le_of_succ_le (ih h')

lemma snd_mem_of_mem_enumF {q : Nat × α} : ∀ {n : Nat} {l : List α}, q ∈ enumF n l → q.2 ∈ l := by
  intro n l
  induction l generalizing n with
  | nil => intro h; cases h
  | cons x xs ih =>
    intro h
    rcases List.mem_cons.mp h with rfl | h'
    · exact List.mem_cons_self _ _
    · exact List.mem_cons_of_mem _ (ih h')

lemma pairwise_fst_enumF : ∀ (n : Nat) (l : List α),
    (enumF n l).Pairwise (fun a b => a.1 < b.1) := by
  intro n l
  induction l generalizing n with
  | nil => simp [enumF]
  | cons x xs ih =>
    refine List.pairwise_cons.mpr ⟨?_, ih (n + 1)⟩
    intro q hq
    exact Nat.lt_of_succ_le (fst_ge_of_mem_enumF hq)

lemma length_enumF : ∀ (n : Nat) (l : List α), (enumF n l).length = l.length := by
  intro n l
  induction l generalizing n with
  | nil => rfl
  | cons x xs ih => simp [enumF, ih]

lemma mem_insertResDesc {r x : MatchResult} {l : List MatchResult} :
    x ∈ insertResDesc r l ↔ x = r ∨ x ∈ l := by
  induction l with
  | nil => simp [insertResDesc]
  | cons y ys ih =>
    simp only [insertResDesc]
    split
    · rw [List.mem_cons, ih, List.mem_cons]
      tauto
    · simp [List.mem_cons]

lemma perm_insertResDesc (r : MatchResult) (l : List MatchResult) :
    List.Perm (insertResDesc r l) (r :: l) := by
  induction l with
  | nil => exact List.Perm.refl _
  | cons x xs ih =>
    simp only [insertResDesc]
    split
    · exact (ih.cons x).trans (List.Perm.swap r x xs)
    · exact List.Perm.refl _

lemma perm_sortResultsDesc (l : List MatchResult) : List.Perm (sortResultsDesc l) l := by
  induction l with
  | nil => exact List.Perm.refl _
  | cons r rs ih =>
    exact (perm_insertResDesc r (sortResultsDesc rs)).trans (ih.cons r)

lemma insertResDesc_sorted {r : MatchResult} {l : List MatchResult}
    (h : l.Pairwise (fun a b => b.score ≤ a.score)) :
    (insertResDesc r l).Pairwise (fun a b => b.score ≤ a.score) := by
  induction l with
  | nil => simp [insertResDesc]
  | cons x xs ih =>
    have h' := List.pairwise_cons.mp h
    simp only [insertResDesc]
    split
    · refine List.pairwise_cons.mpr ⟨?_, ih h'.2⟩
      intro y hy
      rcases mem_insertResDesc.mp hy with rfl | hy'
      · exact le_of_lt (by assumption)
      · exact h'.1 y hy'
    · refine List.pairwise_cons.mpr ⟨?_, h⟩
      intro y hy
      rcases List.mem_cons.mp hy with rfl | hy'
      · exact not_lt.mp (by assumption)
      · exact le_trans (h'.1 y hy') (not_lt.mp (by assumption))

lemma sortResultsDesc_sorted (l : List MatchResult) :
    (sortResultsDesc l).Pairwise (fun a b => b.score ≤ a.score) := by
  induction l with
  | nil => simp [sortResultsDesc]
  | cons r rs ih => exact insertResDesc_sorted ih

lemma insertResDesc_eq_cons {r : MatchResult} {l : List MatchResult}
    (h : ∀ y ∈ l, y.score ≤ r.score) : insertResDesc r l = r :: l := by
  cases l with
  | nil => rfl
  | cons x xs =>
    simp only [insertResDesc]
    rw [if_neg (not_lt.mpr (h x (List.mem_cons_self x xs)))]

lemma filter_insertResDesc (p : MatchResult → Bool) {r : MatchResult} {l : List MatchResult}
    (h : l.Pairwise (fun a b => b.score ≤ a.score)) :
    (insertResDesc r l).filter p =
      if p r then insertResDesc r (l.filter p) else l.filter p := by
  induction l with
  | nil =>
    simp [insertResDesc, List.filter_cons]
  | cons x xs ih =>
    have h' := List.pairwise_cons.mp h
    simp only [insertResDesc]
    split
    · rw [List.filter_cons, ih h'.2]
      by_cases hpx : p x
      · by_cases hpr : p r
        · rw [if_pos hpx, if_pos hpr, if_pos hpr]
          rw [List.filter_cons, if_pos hpx]
          simp only [insertResDesc]
          rw [if_pos (by assumption)]
        · rw [if_pos hpx, if_neg hpr, if_neg hpr, List.filter_cons, if_pos hpx]
      · by_cases hpr : p r
        · rw [if_neg hpx, if_pos hpr, if_pos hpr, List.filter_cons, if_neg hpx]
        · rw [if_neg hpx, if_neg hpr, if_neg hpr, List.filter_cons, if_neg hpx]
    · rw [List.filter_cons]
      by_cases hpr : p r
      · rw [if_pos hpr, if_pos hpr]
        symm
        apply insertResDesc_eq_cons
        intro y hy
        have hy' := List.mem_of_mem_filter hy
        have hxr : x.score ≤ r.score := not_lt.mp (by assumption)
        rcases List.mem_cons.mp hy' with rfl | hyx
        · exact hxr
        · exact le_trans (h'.1 y hyx) hxr
      · rw [if_neg hpr, if_neg hpr]

lemma filter_sortResultsDesc (p : MatchResult → Bool) (l : List MatchResult) :
    (sortResultsDesc l).filter p = sortResultsDesc (l.filter p) := by
  induction l with
  | nil => rfl
  | cons r rs ih =>
    simp only [sortResultsDesc]
    rw [filter_insertResDesc p (sortResultsDesc_sorted rs), ih, List.filter_cons]
    by_cases hpr : p r
    · rw [if_pos hpr, if_pos hpr]
      rfl
    · rw [if_neg hpr, if_neg hpr]

lemma mem_concatMap {f : α → List β} {b : β} : ∀ {l : List α},
    b ∈ concatMap f l ↔ ∃ a ∈ l, b ∈ f a := by
  intro l
  induction l with
  | nil => simp [concatMap]
  | cons x xs ih => simp [concatMap, ih]

lemma filter_concatMap (p : β → Bool) (f : α → List β) (l : List α) :
    (concatMap f l).filter p = concatMap (fun a => (f a).filter p) l := by
  induction l with
  | nil => rfl
  | cons x xs ih => simp [concatMap, List.filter_append, ih]

lemma length_concatMap_const {f : α → List β} {l : List α} {c : Nat}
    (h : ∀ a ∈ l, (f a).length = c) : (concatMap f l).length = l.length * c := by
  induction l with
  | nil => simp [concatMap]
  | cons x xs ih =>
    simp only [concatMap, List.length_append, List.length_cons]
    rw [h x (List.mem_cons_self x xs), ih (fun a ha => h a (List.mem_cons_of_mem _ ha))]
    ring

lemma pytake_of_nonneg {k : ℤ} (hk : 0 ≤ k) (l : List α) :
    pytake k l = l.take k.toNat := by
  simp [pytake, hk]

lemma length_ranked_row {k : ℤ} (hk : 0 ≤ k) (row : List ℚ) :
    (ranked_row k row).length = min k.toNat row.length := by
  rw [ranked_row, pytake_of_nonneg hk, List.length_take, length_sortPairsDesc,
    length_enumF]

/-! Anatomy of a single emitted `MatchResult`. -/

lemma build_match_external_idx (E S : List UnitDescriptor) (nm dm om : List (List ℚ))
    (meth : String) (i j : Nat) : (build_match E S nm dm om meth i j).external_idx = i := rfl

lemma build_match_shea_idx (E S : List UnitDescriptor) (nm dm om : List (List ℚ))
    (meth : String) (i j : Nat) : (build_match E S nm dm om meth i j).shea_idx = j := rfl

lemma clamp01_bounds (x : ℚ) : 0 ≤ max 0 (min 1 x) ∧ max 0 (min 1 x) ≤ 1 :=
  ⟨le_max_left _ _, max_le (by norm_num) (min_le_left _ _)⟩

lemma build_match_flag {E S : List UnitDescriptor} {nm dm om : List (List ℚ)}
    {meth : String} {i j : Nat}
    (h : is_non_passing_grade ((E.getD i {}).grade) = true) :
    (build_match E S nm dm om meth i j).score ≤ 0.20 ∧
    (build_match E S nm dm om meth i j).confidence_band = "Flagged" := by
  simp only [build_match, h]
  constructor
  · exact min_le_right _ _
  · rfl

set_option maxHeartbeats 1000000 in
lemma build_match_guardrail {E S : List UnitDescriptor} {nm dm om : List (List ℚ)}
    {meth : String} {i j : Nat}
    (h1 : (build_match E S nm dm om meth i j).outcomes_sim < 0.15)
    (h2 : (build_match E S nm dm om meth i j).desc_sim < 0.20) :
    (build_match E S nm dm om meth i j).score ≤ 0.58 := by
  simp only [build_match] at h1 h2 ⊢
  split_ifs with hf hc hc
  · exact le_trans (min_le_right _ _) (by norm_num)
  · exact absurd ⟨h1, h2⟩ hc
  · exact max_le (by norm_num) (le_trans (min_le_right _ _) (min_le_right _ _))
  · exact absurd ⟨h1, h2⟩ hc

set_option maxHeartbeats 1000000 in
lemma build_match_score_bounds (E S : List UnitDescriptor) (nm dm om : List (List ℚ))
    (meth : String) (i j : Nat) :
    0 ≤ (build_match E S nm dm om meth i j).score ∧
    (build_match E S nm dm om meth i j).score ≤ 1 := by
  simp only [build_match]
  constructor
  · split_ifs <;>
      first
        | exact le_min (le_max_left _ _) (by norm_num)
        | exact le_max_left _ _
  · split_ifs <;>
      first
        | · refine le_trans (min_le_right _ _) ?_
            norm_num
        | exact max_le (by norm_num) (min_le_left _ _)

lemma grade_bonus_cases (g : String) :
    grade_bonus g = -0.10 ∨ grade_bonus g = 0 ∨ grade_bonus g = 0.04 ∨
    grade_bonus g = 0.07 ∨ grade_bonus g = 0.10 := by
  simp only [grade_bonus]
  split_ifs <;> norm_num

lemma exists_build_match_of_mem {E S : List UnitDescriptor}
    {simM nm dm om : List (List ℚ)} {meth : String} {k : ℤ} {r : MatchResult}
    (h : r ∈ generate_matches E S simM nm dm om meth k) :
    ∃ i j, r = build_match E S nm dm om meth i j := by
  unfold generate_matches at h
  split at h
  · cases h
  · have h' := (perm_sortResultsDesc _).mem_iff.mp h
    obtain ⟨er, _, hmem⟩ := mem_concatMap.mp h'
    obtain ⟨p, _, rfl⟩ := List.mem_map.mp hmem
    exact ⟨er.1, p.1, rfl⟩

lemma getD_retrieval_confidence_bounds {E : List UnitDescriptor}
    (hrc : ∀ u ∈ E, 0 ≤ u.retrieval_confidence ∧ u.retrieval_confidence ≤ 1) (i : Nat) :
    0 ≤ (E.getD i {}).retrieval_confidence ∧ (E.getD i {}).retrieval_confidence ≤ 1 := by
  rcases Nat.lt_or_ge i E.length with hlt | hge
  · rw [List.getD_eq_getElem?_getD, List.getElem?_eq_getElem hlt]
    exact hrc _ (List.getElem_mem hlt)
  · rw [List.getD_eq_getElem?_getD, List.getElem?_eq_none hge]
    exact ⟨le_refl 0, by norm_num⟩

/-! Claim theorems. -/

/-- C1: for every external unit whose grade normalizes (case-insensitively,
whitespace-trimmed) to a non-passing token, every `MatchResult` emitted for
that unit by `generate_matches` has `score ≤ 0.20` and
`confidence_band = "Flagged"`, regardless of the similarity-matrix values,
credit points, and retrieval confidence of the pair. -/
theorem nonpassing_grade_flag_dominance (E S : List UnitDescriptor)
    (simM nm dm om : List (List ℚ)) (meth : String) (k : ℤ) :
    ∀ r ∈ generate_matches E S simM nm dm om meth k,
      is_non_passing_grade ((E.getD r.external_idx {}).grade) = true →
      r.score ≤ 0.20 ∧ r.confidence_band = "Flagged" := by
  intro r hr hg
  obtain ⟨i, j, rfl⟩ := exists_build_match_of_mem hr
  rw [build_match_external_idx] at hg
  exact build_match_flag hg

set_option maxRecDepth 100000 in
/-- Witness for C1: a unit graded `"Fail"` with perfect textual similarity is
still emitted with `score ≤ 0.20` and band `"Flagged"`. -/
theorem nonpassing_grade_flag_dominance_witness :
    ((generate_matches [{ grade := "Fail" }] [{}] [[0.9]] [[1]] [[1]] [[1]] "TF-IDF" 1).getD 0
        default).score ≤ 0.20 ∧
    ((generate_matches [{ grade := "Fail" }] [{}] [[0.9]] [[1]] [[1]] [[1]] "TF-IDF" 1).getD 0
        default).confidence_band = "Flagged" :=
  nonpassing_grade_flag_dominance [{ grade := "Fail" }] [{}] [[0.9]] [[1]] [[1]] [[1]] "TF-IDF" 1
    _ (by with_unfolding_all decide) (by with_unfolding_all rfl)

/-- C2: for every emitted `MatchResult`, if the clamped outcomes component is
below 0.15 and the clamped description component is below 0.20, the final
score is at most 0.58, regardless of name similarity, credit compatibility,
grade bonus and retrieval bonus. -/
theorem low_evidence_cap (E S : List UnitDescriptor)
    (simM nm dm om : List (List ℚ)) (meth : String) (k : ℤ) :
    ∀ r ∈ generate_matches E S simM nm dm om meth k,
      r.outcomes_sim < 0.15 → r.desc_sim < 0.20 → r.score ≤ 0.58 := by
  intro r hr h1 h2
  obtain ⟨i, j, rfl⟩ := exists_build_match_of_mem hr
  exact build_match_guardrail h1 h2

set_option maxRecDepth 100000 in
/-- Witness for C2: a pair with outcomes similarity 0.05, description
similarity 0.10 and name similarity 1.0 is scored at most 0.58. -/
theorem low_evidence_cap_witness :
    ((generate_matches [{}] [{}] [[0.9]] [[1]] [[0.1]] [[0.05]] "TF-IDF" 1).getD 0
        default).score ≤ 0.58 :=
  low_evidence_cap [{}] [{}] [[0.9]] [[1]] [[0.1]] [[0.05]] "TF-IDF" 1
    _ (by with_unfolding_all decide) (by with_unfolding_all decide)
    (by with_unfolding_all decide)

/-- C3: the numeric compatibility scorer returns 0 whenever either argument
fails to parse or parses to zero (`safe_num` is 0 in exactly those cases);
returns 1 whenever both parse to non-zero values within tolerance of each
other; otherwise returns `max 0 (1 - |a-b| / max a b)`; and on the concrete
examples (with tolerance 2): 10 vs 10 gives 1, 10 vs 12 gives 1, 10 vs 20
gives 1/2, and an unparseable side (`""` or `"abc"`, modelled `none`) gives 0.
The Lean function is total, mirroring that the Python code never raises. -/
theorem compat_score_spec : ∀ (a b : Option ℚ) (tol : ℚ),
    ((safe_num a = 0 ∨ safe_num b = 0) → compat_score a b tol = 0) ∧
    (safe_num a ≠ 0 → safe_num b ≠ 0 → |safe_num a - safe_num b| ≤ tol →
      compat_score a b tol = 1) ∧
    (safe_num a ≠ 0 → safe_num b ≠ 0 → ¬(|safe_num a - safe_num b| ≤ tol) →
      compat_score a b tol =
        max 0 (1 - |safe_num a - safe_num b| / max (safe_num a) (safe_num b))) ∧
    compat_score (some 10) (some 10) 2 = 1 ∧
    compat_score (some 10) (some 12) 2 = 1 ∧
    compat_score (some 10) (some 20) 2 = 1/2 ∧
    compat_score none (some 10) 2 = 0 := by
  intro a b tol
  refine ⟨?_, ?_, ?_, ?_, ?_, ?_, ?_⟩
  · intro h
    simp only [compat_score]
    rw [if_pos h]
  · intro ha hb htol
    simp only [compat_score]
    rw [if_neg (by tauto), if_pos htol]
  · intro ha hb htol
    simp only [compat_score]
    rw [if_neg (by tauto), if_neg htol]
  · with_unfolding_all rfl
  · with_unfolding_all rfl
  · with_unfolding_all rfl
  · with_unfolding_all rfl

/-- Witness for C3: the within-tolerance case applied at `10` vs `12` with
tolerance 2. -/
theorem compat_score_spec_witness : compat_score (some 10) (some 12) 2 = 1 :=
  (compat_score_spec (some 10) (some 12) 2).2.1
    (by with_unfolding_all decide) (by with_unfolding_all decide)
    (by with_unfolding_all decide)

/-- C4: whenever every external unit's retrieval confidence lies in [0,1],
every emitted `MatchResult` has `score`, `name_sim`, `desc_sim`,
`outcomes_sim` and `credit_sim` in [0,1], `grade_bonus` in
{-0.10, 0, 0.04, 0.07, 0.10}, and `retrieval_bonus` in [0, 0.08] — even when
intermediate component sums fall outside [0,1]. -/
theorem component_bounds (E S : List UnitDescriptor)
    (simM nm dm om : List (List ℚ)) (meth : String) (k : ℤ)
    (hrc : ∀ u ∈ E, 0 ≤ u.retrieval_confidence ∧ u.retrieval_confidence ≤ 1) :
    ∀ r ∈ generate_matches E S simM nm dm om meth k,
      (0 ≤ r.score ∧ r.score ≤ 1) ∧
      (0 ≤ r.name_sim ∧ r.name_sim ≤ 1) ∧
      (0 ≤ r.desc_sim ∧ r.desc_sim ≤ 1) ∧
      (0 ≤ r.outcomes_sim ∧ r.outcomes_sim ≤ 1) ∧
      (0 ≤ r.credit_sim ∧ r.credit_sim ≤ 1) ∧
      (r.grade_bonus = -0.10 ∨ r.grade_bonus = 0 ∨ r.grade_bonus = 0.04 ∨
        r.grade_bonus = 0.07 ∨ r.grade_bonus = 0.10) ∧
      (0 ≤ r.retrieval_bonus ∧ r.retrieval_bonus ≤ 0.08) := by
  intro r hr
  obtain ⟨i, j, rfl⟩ := exists_build_match_of_mem hr
  refine ⟨build_match_score_bounds E S nm dm om meth i j, clamp01_bounds _,
    clamp01_bounds _, clamp01_bounds _, clamp01_bounds _, grade_bonus_cases _, ?_⟩
  obtain ⟨h0, h1⟩ := getD_retrieval_confidence_bounds hrc i
  constructor
  · exact mul_nonneg (by norm_num) h0
  · calc (0.08 : ℚ) * (E.getD i {}).retrieval_confidence
        ≤ 0.08 * 1 := mul_le_mul_of_nonneg_left h1 (by norm_num)
    _ = 0.08 := mul_one _

set_option maxRecDepth 100000 in
/-- Witness for C4 at a concrete input with retrieval confidence 0.5. -/
theorem component_bounds_witness :
    (0 ≤ ((generate_matches [{ grade := "HD", retrieval_confidence := 0.5 }] [{}] [[0.9]] [[2]]
        [[0.6]] [[0.7]] "TF-IDF" 1).getD 0 default).score ∧
      ((generate_matches [{ grade := "HD", retrieval_confidence := 0.5 }] [{}] [[0.9]] [[2]]
        [[0.6]] [[0.7]] "TF-IDF" 1).getD 0 default).score ≤ 1) ∧
    (0 ≤ ((generate_matches [{ grade := "HD", retrieval_confidence := 0.5 }] [{}] [[0.9]] [[2]]
        [[0.6]] [[0.7]] "TF-IDF" 1).getD 0 default).name_sim ∧
      ((generate_matches [{ grade := "HD", retrieval_confidence := 0.5 }] [{}] [[0.9]] [[2]]
        [[0.6]] [[0.7]] "TF-IDF" 1).getD 0 default).name_sim ≤ 1) ∧
    (0 ≤ ((generate_matches [{ grade := "HD", retrieval_confidence := 0.5 }] [{}] [[0.9]] [[2]]
        [[0.6]] [[0.7]] "TF-IDF" 1).getD 0 default).desc_sim ∧
      ((generate_matches [{ grade := "HD", retrieval_confidence := 0.5 }] [{}] [[0.9]] [[2]]
        [[0.6]] [[0.7]] "TF-IDF" 1).getD 0 default).desc_sim ≤ 1) ∧
    (0 ≤ ((generate_matches [{ grade := "HD", retrieval_confidence := 0.5 }] [{}] [[0.9]] [[2]]
        [[0.6]] [[0.7]] "TF-IDF" 1).getD 0 default).outcomes_sim ∧
      ((generate_matches [{ grade := "HD", retrieval_confidence := 0.5 }] [{}] [[0.9]] [[2]]
        [[0.6]] [[0.7]] "TF-IDF" 1).getD 0 default).outcomes_sim ≤ 1) ∧
    (0 ≤ ((generate_matches [{ grade := "HD", retrieval_confidence := 0.5 }] [{}] [[0.9]] [[2]]
        [[0.6]] [[0.7]] "TF-IDF" 1).getD 0 default).credit_sim ∧
      ((generate_matches [{ grade := "HD", retrieval_confidence := 0.5 }] [{}] [[0.9]] [[2]]
        [[0.6]] [[0.7]] "TF-IDF" 1).getD 0 default).credit_sim ≤ 1) ∧
    (((generate_matches [{ grade := "HD", retrieval_confidence := 0.5 }] [{}] [[0.9]] [[2]]
        [[0.6]] [[0.7]] "TF-IDF" 1).getD 0 default).grade_bonus = -0.10 ∨
      ((generate_matches [{ grade := "HD", retrieval_confidence := 0.5 }] [{}] [[0.9]] [[2]]
        [[0.6]] [[0.7]] "TF-IDF" 1).getD 0 default).grade_bonus = 0 ∨
      ((generate_matches [{ grade := "HD", retrieval_confidence := 0.5 }] [{}] [[0.9]] [[2]]
        [[0.6]] [[0.7]] "TF-IDF" 1).getD 0 default).grade_bonus = 0.04 ∨
      ((generate_matches [{ grade := "HD", retrieval_confidence := 0.5 }] [{}] [[0.9]] [[2]]
        [[0.6]] [[0.7]] "TF-IDF" 1).getD 0 default).grade_bonus = 0.07 ∨
      ((generate_matches [{ grade := "HD", retrieval_confidence := 0.5 }] [{}] [[0.9]] [[2]]
        [[0.6]] [[0.7]] "TF-IDF" 1).getD 0 default).grade_bonus = 0.10) ∧
    (0 ≤ ((generate_matches [{ grade := "HD", retrieval_confidence := 0.5 }] [{}] [[0.9]] [[2]]
        [[0.6]] [[0.7]] "TF-IDF" 1).getD 0 default).retrieval_bonus ∧
      ((generate_matches [{ grade := "HD", retrieval_confidence := 0.5 }] [{}] [[0.9]] [[2]]
        [[0.6]] [[0.7]] "TF-IDF" 1).getD 0 default).retrieval_bonus ≤ 0.08) :=
  component_bounds [{ grade := "HD", retrieval_confidence := 0.5 }] [{}] [[0.9]] [[2]]
    [[0.6]] [[0.7]] "TF-IDF" 1 (by with_unfolding_all decide)
    _ (by with_unfolding_all decide)

/-- C5: `generate_matches` called with an empty external-unit list or an
empty catalog list returns the empty result list (and cannot raise: the
embedding is a total function), for every value of `top_k`. -/
theorem empty_inputs_give_empty (E S : List UnitDescriptor)
    (simM nm dm om : List (List ℚ)) (meth : String) (k : ℤ)
    (h : E = [] ∨ S = []) :
    generate_matches E S simM nm dm om meth k = [] := by
  rcases h with rfl | rfl
  · rfl
  · simp [generate_matches]

/-- Witness for C5 at an empty external list and a non-trivial catalog. -/
theorem empty_inputs_give_empty_witness :
    generate_matches [] [{}] [[1]] [[1]] [[1]] [[1]] "TF-IDF" 5 = [] :=
  empty_inputs_give_empty [] [{}] [[1]] [[1]] [[1]] [[1]] "TF-IDF" 5 (Or.inl rfl)

/-! Per-unit decomposition of the emitted result list. -/

lemma ranked_row_nil (k : ℤ) : ranked_row k [] = [] := by
  simp [ranked_row, enumF, sortPairsDesc, pytake]

lemma generate_matches_cons_eq (e s : UnitDescriptor) (E' S' : List UnitDescriptor)
    (simM nm dm om : List (List ℚ)) (meth : String) (k : ℤ) :
    generate_matches (e :: E') (s :: S') simM nm dm om meth k
      = sortResultsDesc (concatMap
          (fun er => (ranked_row k er.2).map
            (fun p => build_match (e :: E') (s :: S') nm dm om meth er.1 p.1))
          (enumF 0 simM)) := rfl

lemma generate_matches_sorted (E S : List UnitDescriptor)
    (simM nm dm om : List (List ℚ)) (meth : String) (k : ℤ) :
    (generate_matches E S simM nm dm om meth k).Pairwise (fun a b => b.score ≤ a.score) := by
  unfold generate_matches
  split
  · exact List.Pairwise.nil
  · exact sortResultsDesc_sorted _

lemma filter_ext_blocks (E S : List UnitDescriptor) (nm dm om : List (List ℚ))
    (meth : String) (k : ℤ) (i : Nat) : ∀ (n : Nat) (l : List (List ℚ)),
    concatMap (fun er => ((ranked_row k er.2).map
        (fun p => build_match E S nm dm om meth er.1 p.1)).filter
          (fun r => r.external_idx == i)) (enumF n l)
      = if n ≤ i ∧ i < n + l.length
        then (ranked_row k (l.getD (i - n) [])).map
          (fun p => build_match E S nm dm om meth i p.1)
        else [] := by
  intro n l
  induction l generalizing n with
  | nil =>
    rw [if_neg (by simp)]
    rfl
  | cons row rest ih =>
    simp only [enumF, concatMap]
    rw [ih (n + 1)]
    by_cases hni : n = i
    · subst hni
      rw [if_neg (by omega), if_pos ⟨Nat.le_refl n, by simp only [List.length_cons]; omega⟩]
      rw [List.filter_map]
      have hp : ((fun r => r.external_idx == n) ∘
          (fun p : Nat × ℚ => build_match E S nm dm om meth n p.1)) = fun _ => true := by
        funext p
        simp [Function.comp, build_match_external_idx]
      rw [hp, List.filter_true, Nat.sub_self, List.getD_cons_zero, List.append_nil]
    · have hp : ((fun r => r.external_idx == i) ∘
          (fun p : Nat × ℚ => build_match E S nm dm om meth n p.1)) = fun _ => false := by
        funext p
        simp [Function.comp, build_match_external_idx, hni]
      rw [List.filter_map, hp, List.filter_false, List.map_nil, List.nil_append]
      by_cases hcond : n + 1 ≤ i ∧ i < n + 1 + rest.length
      · rw [if_pos hcond, if_pos (by simp only [List.length_cons]; omega)]
        have hidx : i - n = (i - (n + 1)) + 1 := by omega
        rw [hidx, List.getD_cons_succ]
      · rw [if_neg hcond, if_neg (by simp only [List.length_cons]; omega)]

lemma filter_generate_matches {E S : List UnitDescriptor}
    (simM nm dm om : List (List ℚ)) (meth : String) (k : ℤ)
    (hE : E ≠ []) (hS : S ≠ []) (i : Nat) :
    (generate_matches E S simM nm dm om meth k).filter (fun r => r.external_idx == i)
      = sortResultsDesc ((ranked_row k (simM.getD i [])).map
          (fun p => build_match E S nm dm om meth i p.1)) := by
  obtain ⟨e, E', rfl⟩ := List.exists_cons_of_ne_nil hE
  obtain ⟨s, S', rfl⟩ := List.exists_cons_of_ne_nil hS
  rw [generate_matches_cons_eq, filter_sortResultsDesc, filter_concatMap,
    filter_ext_blocks _ _ nm dm om meth k i 0 simM]
  by_cases h : i < simM.length
  · rw [if_pos ⟨Nat.zero_le _, by omega⟩, Nat.sub_zero]
  · rw [if_neg (by omega), List.getD_eq_getElem?_getD, List.getElem?_eq_none (by omega),
      Option.getD_none, ranked_row_nil, List.map_nil]

set_option maxRecDepth 100000 in
/-- Counterexample to C7 as stated: two results for the same external unit
with equal final scores (9/20 each) are emitted with catalog indices in the
order [1, 0] — the order of descending full-text similarity, not the original
catalog index order. -/
theorem tie_order_counterexample :
    (generate_matches [{ grade := "" }] [{}, {}] [[0, 1]] [[0.5, 0.5]] [[0.5, 0.5]]
        [[0.5, 0.5]] "TF-IDF" 2).map (fun r => (r.external_idx, r.shea_idx, r.score))
      = [(0, 1, 9/20), (0, 0, 9/20)] := by
  with_unfolding_all rfl

/-- C7 (amended): within the results for a single external unit the
`MatchResult`s are ordered by descending final score, and the within-unit
result list is exactly the stable descending sort (by score) of that unit's
ranked-candidate results — so any two results with equal final scores appear
in the candidate-ranking order, which is descending full-text similarity with
ties broken by ascending catalog index (third conjunct), not in raw catalog
index order. -/
theorem within_unit_ordering (E S : List UnitDescriptor)
    (simM nm dm om : List (List ℚ)) (meth : String) (k : ℤ)
    (hE : E ≠ []) (hS : S ≠ []) (i : Nat) :
    ((generate_matches E S simM nm dm om meth k).filter
        (fun r => r.external_idx == i)).Pairwise (fun a b => b.score ≤ a.score) ∧
    (generate_matches E S simM nm dm om meth k).filter (fun r => r.external_idx == i)
      = sortResultsDesc ((ranked_row k (simM.getD i [])).map
          (fun p => build_match E S nm dm om meth i p.1)) ∧
    (sortPairsDesc (enumF 0 (simM.getD i []))).Pairwise
      (fun p q => q.2 < p.2 ∨ (p.2 = q.2 ∧ p.1 < q.1)) :=
  ⟨List.Pairwise.sublist (List.filter_sublist _)
      (generate_matches_sorted E S simM nm dm om meth k),
    filter_generate_matches simM nm dm om meth k hE hS i,
    sortPairsDesc_stable (pairwise_fst_enumF 0 _)⟩

set_option maxRecDepth 100000 in
/-- Witness for the amended C7 at the concrete tie input. -/
theorem within_unit_ordering_witness :
    ((generate_matches [{ grade := "" }] [{}, {}] [[0, 1]] [[0.5, 0.5]] [[0.5, 0.5]]
        [[0.5, 0.5]] "TF-IDF" 2).filter
        (fun r => r.external_idx == 0)).Pairwise (fun a b => b.score ≤ a.score) ∧
    (generate_matches [{ grade := "" }] [{}, {}] [[0, 1]] [[0.5, 0.5]] [[0.5, 0.5]]
        [[0.5, 0.5]] "TF-IDF" 2).filter (fun r => r.external_idx == 0)
      = sortResultsDesc ((ranked_row 2 (([[0, 1]] : List (List ℚ)).getD 0 [])).map
          (fun p => build_match [{ grade := "" }] [{}, {}] [[0.5, 0.5]] [[0.5, 0.5]]
            [[0.5, 0.5]] "TF-IDF" 0 p.1)) ∧
    (sortPairsDesc (enumF 0 (([[0, 1]] : List (List ℚ)).getD 0 []))).Pairwise
      (fun p q => q.2 < p.2 ∨ (p.2 = q.2 ∧ p.1 < q.1)) :=
  within_unit_ordering [{ grade := "" }] [{}, {}] [[0, 1]] [[0.5, 0.5]] [[0.5, 0.5]]
    [[0.5, 0.5]] "TF-IDF" 2 (List.cons_ne_nil _ _) (List.cons_ne_nil _ _) 0

lemma length_generate_matches {E S : List UnitDescriptor}
    {simM : List (List ℚ)} (nm dm om : List (List ℚ)) (meth : String) {k : ℤ}
    (hE : E ≠ []) (hS : S ≠ []) (hk : 0 ≤ k)
    (hlen : simM.length = E.length) (hrow : ∀ row ∈ simM, row.length = S.length) :
    (generate_matches E S simM nm dm om meth k).length
      = E.length * min k.toNat S.length := by
  obtain ⟨e, E', rfl⟩ := List.exists_cons_of_ne_nil hE
  obtain ⟨s, S', rfl⟩ := List.exists_cons_of_ne_nil hS
  rw [generate_matches_cons_eq, (perm_sortResultsDesc _).length_eq,
    length_concatMap_const (c := min k.toNat (s :: S').length)
      (fun er her => by
        rw [List.length_map, length_ranked_row hk,
          hrow er.2 (snd_mem_of_mem_enumF her)]),
    length_enumF, hlen]

/-- C10: for non-empty inputs and `top_k ≥ 1` with well-shaped similarity
matrices, `generate_matches` emits `|external| * min(top_k, |catalog|)`
results in total, exactly `min(top_k, |catalog|)` per external unit, and the
catalog indices selected for unit `i` are (as a multiset) the first
`min(top_k, |catalog|)` of the full-text similarity row sorted in descending
order (which the last conjunct asserts is descending). -/
theorem top_k_selection (E S : List UnitDescriptor)
    (simM nm dm om : List (List ℚ)) (meth : String) (k : ℤ)
    (hE : E ≠ []) (hS : S ≠ []) (hk : 1 ≤ k)
    (hlen : simM.length = E.length) (hrow : ∀ row ∈ simM, row.length = S.length) :
    (generate_matches E S simM nm dm om meth k).length
        = E.length * min k.toNat S.length ∧
    (∀ i, i < E.length →
      ((generate_matches E S simM nm dm om meth k).filter
          (fun r => r.external_idx == i)).length = min k.toNat S.length) ∧
    (∀ i, List.Perm
      (((generate_matches E S simM nm dm om meth k).filter
          (fun r => r.external_idx == i)).map (fun r => r.shea_idx))
      ((ranked_row k (simM.getD i [])).map Prod.fst)) ∧
    (∀ row ∈ simM, (sortPairsDesc (enumF 0 row)).Pairwise (fun p q => q.2 ≤ p.2)) := by
  have hk0 : (0 : ℤ) ≤ k := by omega
  refine ⟨length_generate_matches nm dm om meth hE hS hk0 hlen hrow, ?_, ?_, ?_⟩
  · intro i hi
    rw [filter_generate_matches simM nm dm om meth k hE hS i,
      (perm_sortResultsDesc _).length_eq, List.length_map, length_ranked_row hk0]
    have hi' : i < simM.length := by omega
    rw [List.getD_eq_getElem?_getD, List.getElem?_eq_getElem hi', Option.getD_some,
      hrow _ (List.getElem_mem hi')]
  · intro i
    rw [filter_generate_matches simM nm dm om meth k hE hS i]
    have hperm := (perm_sortResultsDesc ((ranked_row k (simM.getD i [])).map
      (fun p => build_match E S nm dm om meth i p.1))).map (fun r => r.shea_idx)
    refine hperm.trans ?_
    rw [List.map_map]
    exact List.Perm.refl _
  · intro row _
    exact sortPairsDesc_sorted _

/-- Witness for C10 at a concrete 1-external, 2-catalog input with `top_k = 1`. -/
theorem top_k_selection_witness :
    (generate_matches [{}] [{}, {}] [[0.3, 0.7]] [[0.5, 0.5]] [[0.5, 0.5]] [[0.5, 0.5]]
        "TF-IDF" 1).length = 1 * min (1 : ℤ).toNat 2 ∧
    (∀ i, i < 1 →
      ((generate_matches [{}] [{}, {}] [[0.3, 0.7]] [[0.5, 0.5]] [[0.5, 0.5]] [[0.5, 0.5]]
          "TF-IDF" 1).filter (fun r => r.external_idx == i)).length = min (1 : ℤ).toNat 2) ∧
    (∀ i, List.Perm
      (((generate_matches [{}] [{}, {}] [[0.3, 0.7]] [[0.5, 0.5]] [[0.5, 0.5]] [[0.5, 0.5]]
          "TF-IDF" 1).filter (fun r => r.external_idx == i)).map (fun r => r.shea_idx))
      ((ranked_row 1 (([[(0.3 : ℚ), 0.7]] : List (List ℚ)).getD i [])).map Prod.fst)) ∧
    (∀ row ∈ ([[(0.3 : ℚ), 0.7]] : List (List ℚ)),
      (sortPairsDesc (enumF 0 row)).Pairwise (fun p q => q.2 ≤ p.2)) := by
  have h := top_k_selection [{}] [{}, {}] [[0.3, 0.7]] [[0.5, 0.5]] [[0.5, 0.5]] [[0.5, 0.5]]
    "TF-IDF" 1 (List.cons_ne_nil _ _) (List.cons_ne_nil _ _) (by norm_num) rfl
    (by intro row hrow; rw [List.mem_singleton.mp hrow]; rfl)
  exact ⟨by simpa using h.1, by simpa using h.2.1, h.2.2.1, h.2.2.2⟩

/-- C8: with both external oracles absent, the fallback explanation sentence
is a deterministic function of the two titles and the score alone — the
description and learning-outcomes fields do not influence it — choosing
"strong"/"moderate"/"low" wording at score thresholds 0.75 and 0.5 (as
expressed by `fallback_summary_spec`).  Both embedded functions are pure, so
two calls on identical input data produce byte-identical strings. -/
theorem deterministic_fallback_explanation :
    ∀ (e s : NLFields) (score : ℚ),
      compare_units_natural_language e s score = fallback_summary_spec e.title s.title score :=
  fun _ _ _ => rfl

/-- C6: when the level gate detects a target course group but filtering the
catalog by that group yields zero candidates, the suggestion handler invokes
the matcher on the entire unfiltered catalog (so a non-empty catalog still
produces suggestions for that unit, given `top_k ≥ 1` and a well-shaped
similarity provider), and every emitted explanation opens with the detected
gate tag; when no target group is determined, the whole catalog is used and
every explanation opens with the not-detected tag. -/
theorem level_gate_fallback (ext : UnitDescriptor) (shea : List UnitDescriptor)
    (provider : List String → List String → List (List ℚ)) (method : String) (k : ℤ) :
    (∀ t src, level_gate ext = (some t, src) →
      shea.filter (fun s => s.course.toUpper == t) = [] →
      (suggestion_rows_for ext shea provider method k
          = (generate_matches_with [ext] shea provider method k).map
              (build_row ext shea (some t) src) ∧
        (∀ row ∈ suggestion_rows_for ext shea provider method k,
          ∃ rest, row.explanation = "Level gate=" ++ t ++ " via " ++ src ++ ". " ++ rest) ∧
        (shea ≠ [] → 1 ≤ k →
          (∀ a b, (provider a b).length = a.length ∧
            ∀ row ∈ provider a b, row.length = b.length) →
          suggestion_rows_for ext shea provider method k ≠ []))) ∧
    (∀ src, level_gate ext = (none, src) →
      (suggestion_rows_for ext shea provider method k
          = (generate_matches_with [ext] shea provider method k).map
              (build_row ext shea none src) ∧
        (∀ row ∈ suggestion_rows_for ext shea provider method k,
          ∃ rest, row.explanation = "Level gate=not-detected. " ++ rest))) := by
  have hmain : ∀ (target : Option String) (src : String), level_gate ext = (target, src) →
      (match target with
        | some t => shea.filter (fun s => s.course.toUpper == t) = []
        | none => True) →
      suggestion_rows_for ext shea provider method k
        = (generate_matches_with [ext] shea provider method k).map
            (build_row ext shea target src) := by
    intro target src hg hfilt
    unfold suggestion_rows_for
    rw [hg]
    cases target with
    | some t =>
      simp only at hfilt
      simp [hfilt]
    | none => rfl
  constructor
  · intro t src hg hfilt
    have heq := hmain (some t) src hg hfilt
    refine ⟨heq, ?_, ?_⟩
    · intro row hrow
      rw [heq] at hrow
      obtain ⟨r, _, rfl⟩ := List.mem_map.mp hrow
      exact ⟨r.explanation, rfl⟩
    · intro hS hk hws
      have hk0 : (0 : ℤ) ≤ k := by omega
      rw [heq]
      intro hnil
      rw [List.map_eq_nil_iff] at hnil
      have hlen1 : (provider (List.map build_text [ext]) (List.map build_text shea)).length
          = ([ext] : List UnitDescriptor).length := by
        rw [(hws (List.map build_text [ext]) (List.map build_text shea)).1, List.length_map]
      have hrows : ∀ row ∈ provider (List.map build_text [ext]) (List.map build_text shea),
          row.length = shea.length := by
        intro row hrow
        rw [(hws (List.map build_text [ext]) (List.map build_text shea)).2 row hrow,
          List.length_map]
      have hL := length_generate_matches
        (provider (List.map (fun u => u.title) [ext]) (List.map (fun u => u.title) shea))
        (provider (List.map content_text [ext]) (List.map content_text shea))
        (provider (List.map outcomes_fallback_text [ext])
          (List.map outcomes_fallback_text shea))
        method (List.cons_ne_nil ext []) hS hk0 hlen1 hrows
      have hwith : generate_matches_with [ext] shea provider method k
          = generate_matches [ext] shea
              (provider (List.map build_text [ext]) (List.map build_text shea))
              (provider (List.map (fun u => u.title) [ext]) (List.map (fun u => u.title) shea))
              (provider (List.map content_text [ext]) (List.map content_text shea))
              (provider (List.map outcomes_fallback_text [ext])
                (List.map outcomes_fallback_text shea))
              method k := rfl
      rw [← hwith, hnil] at hL
      have hkt : 1 ≤ k.toNat := by omega
      have hSl : 1 ≤ shea.length := List.length_pos.mpr hS
      simp only [List.length_nil, List.length_cons] at hL
      omega
  · intro src hg
    have heq := hmain none src hg trivial
    refine ⟨heq, ?_⟩
    intro row hrow
    rw [heq] at hrow
    obtain ⟨r, _, rfl⟩ := List.mem_map.mp hrow
    exact ⟨r.explanation, rfl⟩

set_option maxRecDepth 100000 in
/-- Witness for C6: an AQF-9 unit gated to MIT against a catalog holding only
a BIT unit still yields a non-empty suggestion list from the full catalog. -/
theorem level_gate_fallback_witness :
    suggestion_rows_for { aqf_num := some 9 } [{ course := "bit" }]
      (fun a b => a.map (fun _ => b.map (fun _ => (0.5 : ℚ)))) "TF-IDF" 1 ≠ [] :=
  ((level_gate_fallback { aqf_num := some 9 } [{ course := "bit" }]
      (fun a b => a.map (fun _ => b.map (fun _ => (0.5 : ℚ)))) "TF-IDF" 1).1
    "MIT" "aqf" (by with_unfolding_all rfl) (by with_unfolding_all rfl)).2.2
    (List.cons_ne_nil _ _) (by norm_num)
    (fun a b => ⟨by simp, fun row hrow => by
      obtain ⟨x, _, rfl⟩ := List.mem_map.mp hrow
      simp⟩)

/-- Counterexample to C9 as stated: an incoming enrichment payload carrying
an explicit empty string for `description` does overwrite — and thereby
clears — an existing non-empty stored description, because SQL `COALESCE`
only skips NULL, not empty strings. -/
theorem enrichment_empty_overwrite_cex :
    (update_external_unit_enrichment { description := some "Existing description" }
        { description := some "" }).description = some "" ∧
    ({ description := some "Existing description" } : ExternalUnitColumns).description
      = some "Existing description" ∧ ("Existing description" : String) ≠ "" := by
  exact ⟨rfl, rfl, by decide⟩

/-- C9 (amended): the enrichment merge is merge-if-present: a stored field is
overwritten exactly when the incoming payload value is present (non-NULL) —
including a present empty string, which does overwrite and can clear a
non-empty field — and a field absent from the payload (or bound as NULL)
stays unchanged. -/
theorem enrichment_merge_if_present :
    ∀ (rec : ExternalUnitColumns) (p : EnrichmentPayload),
      ((p.description = none →
          (update_external_unit_enrichment rec p).description = rec.description) ∧
        (∀ v, p.description = some v →
          (update_external_unit_enrichment rec p).description = some v)) ∧
      ((p.learning_outcomes = none →
          (update_external_unit_enrichment rec p).learning_outcomes
            = rec.learning_outcomes) ∧
        (∀ v, p.learning_outcomes = some v →
          (update_external_unit_enrichment rec p).learning_outcomes = some v)) ∧
      ((p.topics = none →
          (update_external_unit_enrichment rec p).topics = rec.topics) ∧
        (∀ v, p.topics = some v →
          (update_external_unit_enrichment rec p).topics = some v)) ∧
      ((p.credit_points = none →
          (update_external_unit_enrichment rec p).credit_points = rec.credit_points) ∧
        (∀ v, p.credit_points = some v →
          (update_external_unit_enrichment rec p).credit_points = some v)) ∧
      ((p.aqf_level = none →
          (update_external_unit_enrichment rec p).aqf_level = rec.aqf_level) ∧
        (∀ v, p.aqf_level = some v →
          (update_external_unit_enrichment rec p).aqf_level = some v)) ∧
      ((p.source_url = none →
          (update_external_unit_enrichment rec p).source_url = rec.source_url) ∧
        (∀ v, p.source_url = some v →
          (update_external_unit_enrichment rec p).source_url = some v)) ∧
      ((p.retrieval_mode = none →
          (update_external_unit_enrichment rec p).retrieval_mode = rec.retrieval_mode) ∧
        (∀ v, p.retrieval_mode = some v →
          (update_external_unit_enrichment rec p).retrieval_mode = some v)) ∧
      ((p.retrieval_confidence = none →
          (update_external_unit_enrichment rec p).retrieval_confidence
            = rec.retrieval_confidence) ∧
        (∀ v, p.retrieval_confidence = some v →
          (update_external_unit_enrichment rec p).retrieval_confidence = some v)) := by
  intro rec p
  refine ⟨⟨?_, ?_⟩, ⟨?_, ?_⟩, ⟨?_, ?_⟩, ⟨?_, ?_⟩, ⟨?_, ?_⟩, ⟨?_, ?_⟩, ⟨?_, ?_⟩, ⟨?_, ?_⟩⟩ <;>
    first
      | · intro h
          simp [update_external_unit_enrichment, coalesce, h]
      | · intro v h
          simp [update_external_unit_enrichment, coalesce, h]

/-- Witness for the amended C9: an absent payload field leaves the stored
value untouched. -/
theorem enrichment_merge_if_present_witness :
    (update_external_unit_enrichment { description := some "Keep" } {}).description
      = some "Keep" :=
  ((enrichment_merge_if_present { description := some "Keep" } {}).1).1 rfl

end CPL
